import Mathlib

/-!
Verification of the PR-agent MCP server
(`projects/unit3/build-mcp-server/starter/server.py`).

The development shallowly embeds the three tools of the server:

* `analyze_file_changes` — resolves a comparison ref from the current
  branch, runs four read-only git queries, optionally truncates the diff
  and assembles a structured report (source lines 68–224);
* `get_pr_templates` — reads the declared template files and lists them
  (source lines 229–241);
* `suggest_template` — maps a change-type label to a template via the
  `TYPE_MAPPING` synonym table with fallback (source lines 244–271).

The external collaborators are made explicit parameters: the git
subprocess executor becomes a `GitEnv` record of captured process
results keyed by the comparison ref, and the template file store
becomes a function `String → Option String` from filename to contents
(`none` models a file whose `read_text()` raises `FileNotFoundError`).
Python's string primitives used by the code — `str.split('\n')`,
`'\n'.join`, `str.strip()`, `str.lower()` — are embedded as executable
functions over the character list of a string.  JSON serialization is
not modelled: the tools' payloads are represented as structures, and
the error payload `{"error": ...}` as a dedicated constructor.
The `_debug` diagnostics dictionary and the working-directory
resolution (MCP roots) do not influence any report field and are left
outside the embedding; `GitEnv` plays the role of the version-control
executor for the resolved working directory.
-/

/-- Captured outcome of one `subprocess.run` git invocation:
standard output, standard error and the process exit code. -/
structure ProcResult where
  stdout : String
  stderr : String
  exitCode : Int
  deriving Repr, DecidableEq

/-- The version-control executor collaborator: the current-branch query
and the four diff-range queries of `analyze_file_changes`, the latter
keyed by the resolved comparison base (the code always appends
`...HEAD` to it, so the base string itself is the key). -/
structure GitEnv where
  currentBranch : ProcResult
  nameStatus : String → ProcResult
  stat : String → ProcResult
  fullDiff : String → ProcResult
  log : String → ProcResult

/-- Python's `c.isspace()` for the ASCII whitespace characters relevant
to `str.strip()`. -/
def isPySpace (c : Char) : Bool :=
  c == ' ' || c == '\t' || c == '\n' || c == '\r' || c == '\x0b' || c == '\x0c'

/-- Python `s.strip()`: drop leading and trailing whitespace. -/
def pyStrip (s : String) : String :=
  List.asString (((s.data.dropWhile isPySpace).reverse.dropWhile isPySpace).reverse)

/-- Python `s.split('\n')` (source line 189): split the characters of
`s` at every newline.  Like Python's `str.split` with an explicit
separator, `List.splitOn` returns `[[]]` on the empty string and a
nonempty chunk list in general. -/
def pySplitLines (s : String) : List String :=
  (s.data.splitOn '\n').map List.asString

/-- Python `'\n'.join(lines)` (source line 193). -/
def pyJoinLines (l : List String) : String :=
  List.asString (List.intercalate ['\n'] (l.map String.data))

/-- Python `s.lower()` (ASCII case folding, source line 258). -/
def pyLower (s : String) : String :=
  List.asString (s.data.map Char.toLower)

/-- The two strings appended to a truncated diff (source lines 194–195):
a blank separator line, the `Showing N of M lines` line and the
`max_diff_lines` hint line. -/
def truncation_marker (max_diff_lines total : Nat) : String :=
  "\n\n... Output truncated. Showing " ++ Nat.repr max_diff_lines ++ " of "
    ++ Nat.repr total ++ " lines ..."
    ++ "\n... Use max_diff_lines parameter to see more ..."

/-- Result of the diff-truncation step: the (possibly truncated) diff
text, the truncation flag and the total number of lines of the raw
diff output. -/
structure TruncResult where
  diff_content : String
  truncated : Bool
  total_lines : Nat
  deriving Repr, DecidableEq

/-- Source lines 189–198 and 215: split the raw diff output on
newlines; if there are more lines than `max_diff_lines`, keep only the
first `max_diff_lines` of them and append the truncation marker. -/
def truncate_diff (stdout : String) (max_diff_lines : Nat) : TruncResult :=
  let diff_lines := pySplitLines stdout
  if diff_lines.length > max_diff_lines then
    { diff_content :=
        pyJoinLines (diff_lines.take max_diff_lines)
          ++ truncation_marker max_diff_lines diff_lines.length,
      truncated := true,
      total_lines := diff_lines.length }
  else
    { diff_content := stdout, truncated := false, total_lines := diff_lines.length }

/-- Source lines 148–154: when the current branch is the requested base
branch, compare against its remote-tracking counterpart, otherwise
against the local base branch. -/
def resolve_comparison_base (current_branch base_branch : String) : String :=
  if current_branch == base_branch then "origin/" ++ base_branch else base_branch

/-- The successful analysis payload (source lines 208–217, without the
`_debug` diagnostics). -/
structure Analysis where
  base_branch : String
  files_changed : String
  statistics : String
  commits : String
  diff : String
  truncated : Bool
  total_diff_lines : Nat
  deriving Repr, DecidableEq

/-- Outcome of one `analyze_file_changes` call: the serialized analysis
or the structured `{"error": "Git error: <stderr>"}` payload produced
when the checked name-status query raises `CalledProcessError`
(source lines 221–222). -/
inductive ToolResult where
  | ok (analysis : Analysis)
  | gitError (message : String)
  deriving Repr, DecidableEq

/-- Source lines 139–219: embedding of `analyze_file_changes`.  The
current branch is the stripped stdout of `git branch --show-current`;
only the name-status query is run with `check=True`, so only its
failure aborts the call with a `Git error` payload; the stat / diff /
log queries contribute their stdout regardless of their exit status. -/
def analyze_file_changes (env : GitEnv) (base_branch : String)
    (include_diff : Bool) (max_diff_lines : Nat) : ToolResult :=
  let current_branch := pyStrip env.currentBranch.stdout
  let comparison_base := resolve_comparison_base current_branch base_branch
  let files_result := env.nameStatus comparison_base
  if files_result.exitCode ≠ 0 then
    ToolResult.gitError ("Git error: " ++ files_result.stderr)
  else
    let stat_result := env.stat comparison_base
    let commits_result := env.log comparison_base
    if include_diff then
      let diff_result := env.fullDiff comparison_base
      let t := truncate_diff diff_result.stdout max_diff_lines
      ToolResult.ok
        { base_branch := base_branch,
          files_changed := files_result.stdout,
          statistics := stat_result.stdout,
          commits := commits_result.stdout,
          diff := t.diff_content,
          truncated := t.truncated,
          total_diff_lines := t.total_lines }
    else
      ToolResult.ok
        { base_branch := base_branch,
          files_changed := files_result.stdout,
          statistics := stat_result.stdout,
          commits := commits_result.stdout,
          diff := "Diff not included (set include_diff=true to see full diff)",
          truncated := false,
          total_diff_lines := 0 }

/-- Source lines 23–31: the declared templates, in insertion order. -/
def DEFAULT_TEMPLATES : List (String × String) :=
  [("bug.md", "Bug Fix"),
   ("feature.md", "Feature"),
   ("docs.md", "Documentation"),
   ("refactor.md", "Refactor"),
   ("test.md", "Test"),
   ("performance.md", "Performance"),
   ("security.md", "Security")]

/-- Source lines 34–48: the change-type synonym table. -/
def TYPE_MAPPING : List (String × String) :=
  [("bug", "bug.md"),
   ("fix", "bug.md"),
   ("feature", "feature.md"),
   ("enhancement", "feature.md"),
   ("docs", "docs.md"),
   ("documentation", "docs.md"),
   ("refactor", "refactor.md"),
   ("cleanup", "refactor.md"),
   ("test", "test.md"),
   ("testing", "test.md"),
   ("performance", "performance.md"),
   ("optimization", "performance.md"),
   ("security", "security.md")]

/-- One entry of the `get_pr_templates` payload (source lines 232–239). -/
structure TemplateInfo where
  filename : String
  type : String
  content : String
  deriving Repr, DecidableEq

/-- Source lines 232–239: build the template list by reading each
declared file from the store, in declaration order; the first missing
file aborts the whole call (Python `read_text()` raising
`FileNotFoundError` inside the list comprehension). -/
def read_templates (store : String → Option String) :
    List (String × String) → Except String (List TemplateInfo)
  | [] => Except.ok []
  | (filename, template_type) :: rest =>
    match store filename with
    | none => Except.error ("FileNotFoundError: " ++ filename)
    | some content =>
      match read_templates store rest with
      | Except.error e => Except.error e
      | Except.ok ts =>
        Except.ok ({ filename := filename, type := template_type, content := content } :: ts)

/-- Source lines 229–241: `get_pr_templates` re-reads every declared
template file from the store on each call. -/
def get_pr_templates (store : String → Option String) :
    Except String (List TemplateInfo) :=
  read_templates store DEFAULT_TEMPLATES

/-- Python `dict.get(key, default)` over an insertion-ordered
association list. -/
def dictGet (m : List (String × String)) (key default_value : String) : String :=
  match m.find? (fun p => p.1 == key) with
  | some p => p.2
  | none => default_value

/-- The `suggest_template` payload (source lines 265–270). -/
structure TemplateSuggestion where
  recommended_template : TemplateInfo
  reasoning : String
  template_content : String
  usage_hint : String
  deriving Repr, DecidableEq

/-- Source lines 244–271: `suggest_template` re-reads the catalog via
`get_pr_templates` (propagating its failure), looks the lower-cased
change type up in `TYPE_MAPPING` with default `feature.md`, and selects
the first template with that filename, defaulting to the first catalog
entry (Python `templates[0]`; the list built by a successful
`get_pr_templates` is always nonempty, so `headD` is faithful). -/
def suggest_template (store : String → Option String)
    (changes_summary change_type : String) : Except String TemplateSuggestion :=
  match get_pr_templates store with
  | Except.error e => Except.error e
  | Except.ok templates =>
    let template_file := dictGet TYPE_MAPPING (pyLower change_type) "feature.md"
    let selected_template :=
      match templates.find? (fun t => t.filename == template_file) with
      | some t => t
      | none => templates.headD { filename := "", type := "", content := "" }
    Except.ok
      { recommended_template := selected_template,
        reasoning := "Based on your analysis: \x27" ++ changes_summary
          ++ "\x27, this appears to be a " ++ change_type ++ " change. ",
        template_content := selected_template.content,
        usage_hint := "Claude can help you fill out this template based on the specific changes in your PR." }

/-! ### Concrete collaborator instances used by witnesses and counterexamples -/

/-- A repository sitting on `main` (the branch query prints `main` plus
a trailing newline) where all four diff-range queries succeed with
empty output: the working tree has no commits ahead of `origin/main`. -/
def mainQuietEnv : GitEnv :=
  { currentBranch := { stdout := "main\n", stderr := "", exitCode := 0 },
    nameStatus := fun _ => { stdout := "", stderr := "", exitCode := 0 },
    stat := fun _ => { stdout := "", stderr := "", exitCode := 0 },
    fullDiff := fun _ => { stdout := "", stderr := "", exitCode := 0 },
    log := fun _ => { stdout := "", stderr := "", exitCode := 0 } }

/-- A repository on a feature branch whose name-status query fails
(e.g. the requested base ref does not exist), exit code 128. -/
def badRefEnv : GitEnv :=
  { currentBranch := { stdout := "feature-x\n", stderr := "", exitCode := 0 },
    nameStatus := fun _ =>
      { stdout := "", stderr := "fatal: bad revision", exitCode := 128 },
    stat := fun _ => { stdout := "", stderr := "", exitCode := 0 },
    fullDiff := fun _ => { stdout := "", stderr := "", exitCode := 0 },
    log := fun _ => { stdout := "", stderr := "", exitCode := 0 } }

/-- A template store with no files at all: every `read_text()` raises. -/
def emptyStore : String → Option String := fun _ => none

/-- A template store in which every filename resolves to some body. -/
def fullStore : String → Option String := fun _ => some "Template body"

/-! ### Basic facts about the embedded string primitives -/

theorem data_asString (l : List Char) : (List.asString l).data = l := rfl

theorem asString_data (s : String) : List.asString s.data = s := rfl

theorem string_data_append (a b : String) : (a ++ b).data = a.data ++ b.data := rfl

theorem pySplitLines_length (s : String) : (pySplitLines s).length = (s.data.splitOn '\n').length := by
  simp [pySplitLines]

theorem pySplitLines_ne_nil (s : String) : pySplitLines s ≠ [] := by
  simp [pySplitLines, List.splitOn]
  exact List.splitOnP_ne_nil _ _

/-! ### C5: comparison-ref resolution -/

/-- C5.  `resolve_comparison_base` returns `origin/<base>` exactly when
the current branch equals the requested base branch, and the base
branch itself otherwise; no other value is possible. -/
theorem c5_comparison_ref (current_branch base_branch : String) :
    (current_branch = base_branch →
      resolve_comparison_base current_branch base_branch = "origin/" ++ base_branch) ∧
    (current_branch ≠ base_branch →
      resolve_comparison_base current_branch base_branch = base_branch) := by
  constructor
  · intro h
    simp [resolve_comparison_base, h]
  · intro h
    simp [resolve_comparison_base, h]

/-- Witness for C5 at the concrete branch pairs `("main", "main")` and
`("feature-x", "main")`. -/
theorem c5_witness :
    resolve_comparison_base "main" "main" = "origin/" ++ "main" ∧
    resolve_comparison_base "feature-x" "main" = "main" :=
  ⟨(c5_comparison_ref "main" "main").1 rfl,
   (c5_comparison_ref "feature-x" "main").2 (by decide)⟩

/-! ### Computation lemmas for `analyze_file_changes` -/

/-- Failure path (source lines 161–167 and 221–222): a nonzero exit of
the checked name-status query yields the structured error payload. -/
theorem analyze_eq_gitError (env : GitEnv) (base_branch : String)
    (include_diff : Bool) (max_diff_lines : Nat)
    (h : (env.nameStatus
        (resolve_comparison_base (pyStrip env.currentBranch.stdout) base_branch)).exitCode ≠ 0) :
    analyze_file_changes env base_branch include_diff max_diff_lines =
      ToolResult.gitError ("Git error: " ++
        (env.nameStatus
          (resolve_comparison_base (pyStrip env.currentBranch.stdout) base_branch)).stderr) := by
  unfold analyze_file_changes
  rw [if_pos h]

/-- Success path with the diff requested. -/
theorem analyze_eq_ok_true (env : GitEnv) (base_branch : String) (max_diff_lines : Nat)
    (h : (env.nameStatus
        (resolve_comparison_base (pyStrip env.currentBranch.stdout) base_branch)).exitCode = 0) :
    analyze_file_changes env base_branch true max_diff_lines =
      ToolResult.ok (Analysis.mk base_branch
        (env.nameStatus
          (resolve_comparison_base (pyStrip env.currentBranch.stdout) base_branch)).stdout
        (env.stat (resolve_comparison_base (pyStrip env.currentBranch.stdout) base_branch)).stdout
        (env.log (resolve_comparison_base (pyStrip env.currentBranch.stdout) base_branch)).stdout
        (truncate_diff
          (env.fullDiff
            (resolve_comparison_base (pyStrip env.currentBranch.stdout) base_branch)).stdout
          max_diff_lines).diff_content
        (truncate_diff
          (env.fullDiff
            (resolve_comparison_base (pyStrip env.currentBranch.stdout) base_branch)).stdout
          max_diff_lines).truncated
        (truncate_diff
          (env.fullDiff
            (resolve_comparison_base (pyStrip env.currentBranch.stdout) base_branch)).stdout
          max_diff_lines).total_lines) := by
  unfold analyze_file_changes
  rw [if_neg (not_not_intro h)]
  rfl

/-- Success path with the diff not requested. -/
theorem analyze_eq_ok_false (env : GitEnv) (base_branch : String) (max_diff_lines : Nat)
    (h : (env.nameStatus
        (resolve_comparison_base (pyStrip env.currentBranch.stdout) base_branch)).exitCode = 0) :
    analyze_file_changes env base_branch false max_diff_lines =
      ToolResult.ok (Analysis.mk base_branch
        (env.nameStatus
          (resolve_comparison_base (pyStrip env.currentBranch.stdout) base_branch)).stdout
        (env.stat (resolve_comparison_base (pyStrip env.currentBranch.stdout) base_branch)).stdout
        (env.log (resolve_comparison_base (pyStrip env.currentBranch.stdout) base_branch)).stdout
        "Diff not included (set include_diff=true to see full diff)"
        false
        0) := by
  unfold analyze_file_changes
  rw [if_neg (not_not_intro h)]
  rfl

/-- On the truncation side, the flag is set exactly when the total line
count exceeds the budget. -/
theorem truncate_diff_truncated_iff (stdout : String) (max_diff_lines : Nat) :
    (truncate_diff stdout max_diff_lines).truncated = true ↔
      (truncate_diff stdout max_diff_lines).total_lines > max_diff_lines := by
  unfold truncate_diff
  by_cases hgt : (pySplitLines stdout).length > max_diff_lines
  · simp [hgt]
  · simp [hgt]

/-! ### C4: report consistency invariant -/

/-- C4.  For every successful report, `truncated` is `true` exactly
when the diff was requested and its line count exceeds
`max_diff_lines`; when the diff was not requested, `total_diff_lines`
is `0` and `truncated` is `false`. -/
theorem c4_truncation_invariant (env : GitEnv) (base_branch : String)
    (include_diff : Bool) (max_diff_lines : Nat) (r : Analysis)
    (h : analyze_file_changes env base_branch include_diff max_diff_lines = ToolResult.ok r) :
    (r.truncated = true ↔ r.total_diff_lines > max_diff_lines ∧ include_diff = true) ∧
    (include_diff = false → r.total_diff_lines = 0 ∧ r.truncated = false) := by
  by_cases h0 : (env.nameStatus
      (resolve_comparison_base (pyStrip env.currentBranch.stdout) base_branch)).exitCode = 0
  · cases include_diff with
    | true =>
      rw [analyze_eq_ok_true env base_branch max_diff_lines h0] at h
      obtain rfl : _ = r := (ToolResult.ok.injEq _ _).mp h
      refine ⟨?_, by simp⟩
      simpa using truncate_diff_truncated_iff
        (env.fullDiff
          (resolve_comparison_base (pyStrip env.currentBranch.stdout) base_branch)).stdout
        max_diff_lines
    | false =>
      rw [analyze_eq_ok_false env base_branch max_diff_lines h0] at h
      obtain rfl : _ = r := (ToolResult.ok.injEq _ _).mp h
      simp
  · rw [analyze_eq_gitError env base_branch include_diff max_diff_lines h0] at h
    exact absurd h (by simp)

/-- Witness for C4 at the concrete quiet-`main` repository,
`include_diff = true`, `max_diff_lines = 500`. -/
theorem c4_witness :
    ((Analysis.mk "main" "" "" "" "" false 1).truncated = true ↔
      (Analysis.mk "main" "" "" "" "" false 1).total_diff_lines > 500 ∧ true = true) ∧
    (true = false →
      (Analysis.mk "main" "" "" "" "" false 1).total_diff_lines = 0 ∧
      (Analysis.mk "main" "" "" "" "" false 1).truncated = false) :=
  c4_truncation_invariant mainQuietEnv "main" true 500 (Analysis.mk "main" "" "" "" "" false 1)
    (by decide)

/-! ### C7: structured git-error payload -/

/-- C7.  When the mandatory name-status query against the resolved
comparison ref fails (nonzero exit code), `analyze_file_changes`
returns the structured `Git error` payload built from the captured
standard error, for any combination of the other arguments. -/
theorem c7_git_error_payload (env : GitEnv) (base_branch : String)
    (include_diff : Bool) (max_diff_lines : Nat)
    (h : (env.nameStatus
        (resolve_comparison_base (pyStrip env.currentBranch.stdout) base_branch)).exitCode ≠ 0) :
    analyze_file_changes env base_branch include_diff max_diff_lines =
      ToolResult.gitError ("Git error: " ++
        (env.nameStatus
          (resolve_comparison_base (pyStrip env.currentBranch.stdout) base_branch)).stderr) :=
  analyze_eq_gitError env base_branch include_diff max_diff_lines h

/-- Witness for C7: a repository whose name-status query exits with
code 128 and `fatal: bad revision` on standard error. -/
theorem c7_witness :
    analyze_file_changes badRefEnv "main" true 500 =
      ToolResult.gitError ("Git error: " ++
        (badRefEnv.nameStatus
          (resolve_comparison_base (pyStrip badRefEnv.currentBranch.stdout) "main")).stderr) :=
  c7_git_error_payload badRefEnv "main" true 500 (by decide)

/-! ### C1: quiet repository on `main` -/

/-- Counterexample to C1 as stated: with the current branch equal to
the requested base `main` and all four git queries returning empty
output, the report indeed has empty `files_changed` and
`truncated = false`, but `total_diff_lines` is `1`, not `0` — Python's
`"".split('\n')` is `[""]`, one (empty) line. -/
theorem c1_counterexample :
    analyze_file_changes mainQuietEnv "main" true 500 =
      ToolResult.ok (Analysis.mk "main" "" "" "" "" false 1) ∧
    (Analysis.mk "main" "" "" "" "" false 1).total_diff_lines ≠ 0 := by
  constructor
  · decide
  · decide

/-- C1 (amended).  For every repository whose stripped current branch
is the requested base `main` and whose four diff-range queries against
`origin/main` succeed with empty output, the report has empty
`files_changed`, `truncated = false` and `total_diff_lines = 1` (the
newline-split of the empty diff output is a single empty line). -/
theorem c1_amended_theorem (env : GitEnv)
    (hbr : pyStrip env.currentBranch.stdout = "main")
    (hns : env.nameStatus "origin/main" = ProcResult.mk "" "" 0)
    (hst : env.stat "origin/main" = ProcResult.mk "" "" 0)
    (hdf : env.fullDiff "origin/main" = ProcResult.mk "" "" 0)
    (hlg : env.log "origin/main" = ProcResult.mk "" "" 0) :
    analyze_file_changes env "main" true 500 =
      ToolResult.ok (Analysis.mk "main" "" "" "" "" false 1) := by
  have hres : resolve_comparison_base (pyStrip env.currentBranch.stdout) "main" = "origin/main" := by
    rw [hbr]
    decide
  rw [analyze_eq_ok_true env "main" 500 (by rw [hres, hns])]
  rw [hres, hns, hst, hdf, hlg]
  decide

/-- Witness for the amended C1 at the concrete quiet-`main` repository. -/
theorem c1_witness :
    analyze_file_changes mainQuietEnv "main" true 500 =
      ToolResult.ok (Analysis.mk "main" "" "" "" "" false 1) :=
  c1_amended_theorem mainQuietEnv (by decide) rfl rfl rfl rfl

/-! ### C8: zero line budget -/

/-- C8.  With `max_diff_lines = 0` and the diff requested, every
successful call returns a report whose diff text is exactly the
truncation marker (no original diff lines), with `truncated = true`
and the total line count of the raw diff output still reported. -/
theorem c8_zero_max_lines (env : GitEnv) (base_branch : String)
    (h : (env.nameStatus
        (resolve_comparison_base (pyStrip env.currentBranch.stdout) base_branch)).exitCode = 0) :
    ∃ r, analyze_file_changes env base_branch true 0 = ToolResult.ok r ∧
      r.truncated = true ∧
      r.total_diff_lines =
        (pySplitLines (env.fullDiff
          (resolve_comparison_base (pyStrip env.currentBranch.stdout) base_branch)).stdout).length ∧
      r.diff = truncation_marker 0 r.total_diff_lines := by
  unfold analyze_file_changes
  rw [if_neg (by simp [h])]
  simp only [if_pos rfl]
  refine ⟨_, rfl, ?_, ?_, ?_⟩
  · unfold truncate_diff
    rw [if_pos (by simpa using List.length_pos.mpr (pySplitLines_ne_nil _))]
  · unfold truncate_diff
    rw [if_pos (by simpa using List.length_pos.mpr (pySplitLines_ne_nil _))]
  · unfold truncate_diff
    rw [if_pos (by simpa using List.length_pos.mpr (pySplitLines_ne_nil _))]
    simp only [List.take_zero]
    show pyJoinLines [] ++ _ = _
    rfl

/-- Witness for C8 at the concrete quiet-`main` repository. -/
theorem c8_witness :
    ∃ r, analyze_file_changes mainQuietEnv "main" true 0 = ToolResult.ok r ∧
      r.truncated = true ∧
      r.total_diff_lines =
        (pySplitLines (mainQuietEnv.fullDiff
          (resolve_comparison_base (pyStrip mainQuietEnv.currentBranch.stdout) "main")).stdout).length ∧
      r.diff = truncation_marker 0 r.total_diff_lines :=
  c8_zero_max_lines mainQuietEnv "main" (by decide)

/-! ### Template-catalog lemmas -/

/-- When every declared file is present in the store, `read_templates`
succeeds and returns, in declaration order, exactly the declared
(filename, type) pairs with the contents read from the store at this
call. -/
theorem read_templates_ok (store : String → Option String) :
    ∀ l : List (String × String), (∀ p ∈ l, (store p.1).isSome = true) →
      ∃ ts, read_templates store l = Except.ok ts ∧
        ts.map (fun t => (t.filename, t.type)) = l ∧
        ∀ t ∈ ts, store t.filename = some t.content := by
  intro l
  induction l with
  | nil =>
    intro _
    exact ⟨[], rfl, rfl, by simp⟩
  | cons p rest ih =>
    intro h
    obtain ⟨fn, ty⟩ := p
    obtain ⟨c, hc⟩ := Option.isSome_iff_exists.mp (h _ (List.mem_cons_self _ _))
    obtain ⟨ts, hts, hmap, hcont⟩ := ih (fun q hq => h q (List.mem_cons_of_mem _ hq))
    refine ⟨TemplateInfo.mk fn ty c :: ts, ?_, ?_, ?_⟩
    · unfold read_templates
      rw [hc, hts]
    · simpa using hmap
    · intro t ht
      rcases List.mem_cons.mp ht with rfl | ht
      · exact hc
      · exact hcont t ht

/-- Searching a template list by filename succeeds whenever the
filename occurs, and the found entry carries that filename. -/
theorem find_by_filename (ts : List TemplateInfo) (tf : String)
    (h : tf ∈ ts.map (fun t => t.filename)) :
    ∃ t, ts.find? (fun t => t.filename == tf) = some t ∧ t.filename = tf ∧ t ∈ ts := by
  have hsome : (ts.find? (fun t => t.filename == tf)).isSome = true := by
    rw [List.find?_isSome]
    obtain ⟨t, ht, rfl⟩ := List.mem_map.mp h
    exact ⟨t, ht, by simp⟩
  obtain ⟨t, ht⟩ := Option.isSome_iff_exists.mp hsome
  refine ⟨t, ht, ?_, List.mem_of_find?_eq_some ht⟩
  simpa using List.find?_some ht

/-- Every value the synonym lookup can produce — a `TYPE_MAPPING` value
or the `feature.md` default — is a declared template filename. -/
theorem dictGet_type_mapping_mem (key : String) :
    dictGet TYPE_MAPPING key "feature.md" ∈ DEFAULT_TEMPLATES.map Prod.fst := by
  unfold dictGet
  cases hfind : TYPE_MAPPING.find? (fun p => p.1 == key) with
  | none => decide
  | some p =>
    have hp : p.2 ∈ TYPE_MAPPING.map Prod.snd :=
      List.mem_map_of_mem Prod.snd (List.mem_of_find?_eq_some hfind)
    have hsub : ∀ v ∈ TYPE_MAPPING.map Prod.snd, v ∈ DEFAULT_TEMPLATES.map Prod.fst := by decide
    exact hsub p.2 hp

/-- Core behavior of `suggest_template` over an intact store: the call
succeeds and the recommended template's filename is exactly the synonym
lookup result of the lower-cased change type. -/
theorem suggest_template_spec (store : String → Option String)
    (hstore : ∀ p ∈ DEFAULT_TEMPLATES, (store p.1).isSome = true)
    (changes_summary change_type : String) :
    ∃ s, suggest_template store changes_summary change_type = Except.ok s ∧
      s.recommended_template.filename =
        dictGet TYPE_MAPPING (pyLower change_type) "feature.md" := by
  obtain ⟨ts, hts, hmap, hcont⟩ := read_templates_ok store DEFAULT_TEMPLATES hstore
  have hfiles : ts.map (fun t => t.filename) = DEFAULT_TEMPLATES.map Prod.fst := by
    have := congrArg (List.map Prod.fst) hmap
    simpa [List.map_map, Function.comp] using this
  obtain ⟨t, hfind, hfn, _⟩ := find_by_filename ts
    (dictGet TYPE_MAPPING (pyLower change_type) "feature.md")
    (by rw [hfiles]; exact dictGet_type_mapping_mem _)
  refine ⟨TemplateSuggestion.mk t
      ("Based on your analysis: \x27" ++ changes_summary ++ "\x27, this appears to be a "
        ++ change_type ++ " change. ")
      t.content
      "Claude can help you fill out this template based on the specific changes in your PR.",
    ?_, hfn⟩
  simp only [suggest_template, get_pr_templates, hts, hfind]

/-! ### C3: when template files are read -/

/-- Counterexample to C3 as stated: with an empty file store, both
`get_pr_templates` and `suggest_template` fail at call time with the
missing-file error for the first declared template — the template files
are consulted on every call, and a missing file surfaces as a per-call
failure, not as a startup failure. -/
theorem c3_counterexample :
    get_pr_templates emptyStore = Except.error ("FileNotFoundError: " ++ "bug.md") ∧
    suggest_template emptyStore "fixed the crash" "bug" =
      Except.error ("FileNotFoundError: " ++ "bug.md") := by
  constructor
  · rfl
  · rfl

/-- C3 (amended).  Template file contents are read from the store on
every `get_pr_templates` call (and on every `suggest_template` call,
which re-invokes it): a call made while `bug.md` is absent fails with
`FileNotFoundError`, and a call made while all declared files are
present returns contents looked up in the store passed to that very
call. -/
theorem c3_amended_theorem (store : String → Option String)
    (changes_summary change_type : String) :
    (store "bug.md" = none →
      get_pr_templates store = Except.error ("FileNotFoundError: " ++ "bug.md") ∧
      suggest_template store changes_summary change_type =
        Except.error ("FileNotFoundError: " ++ "bug.md")) ∧
    ((∀ p ∈ DEFAULT_TEMPLATES, (store p.1).isSome = true) →
      ∃ ts, get_pr_templates store = Except.ok ts ∧
        ∀ t ∈ ts, store t.filename = some t.content) := by
  constructor
  · intro hmiss
    have hget : get_pr_templates store = Except.error ("FileNotFoundError: " ++ "bug.md") := by
      unfold get_pr_templates DEFAULT_TEMPLATES read_templates
      rw [hmiss]
    refine ⟨hget, ?_⟩
    simp only [suggest_template, hget]
  · intro hstore
    obtain ⟨ts, hts, _, hcont⟩ := read_templates_ok store DEFAULT_TEMPLATES hstore
    exact ⟨ts, hts, hcont⟩

/-- Witness for the amended C3: the empty store fails per call, the
full store serves the contents it holds at call time. -/
theorem c3_witness :
    (get_pr_templates emptyStore = Except.error ("FileNotFoundError: " ++ "bug.md") ∧
     suggest_template emptyStore "fixed the crash" "bug" =
       Except.error ("FileNotFoundError: " ++ "bug.md")) ∧
    (∃ ts, get_pr_templates fullStore = Except.ok ts ∧
      ∀ t ∈ ts, fullStore t.filename = some t.content) :=
  ⟨(c3_amended_theorem emptyStore "fixed the crash" "bug").1 rfl,
   (c3_amended_theorem fullStore "fixed the crash" "bug").2 (fun _ _ => rfl)⟩

/-! ### C6: recommendation totality -/

/-- C6.  Over an intact template store, `suggest_template` succeeds for
every `change_type` string, and whenever the lower-cased change type
has no entry in the synonym table the recommended template is the
feature template. -/
theorem c6_recommendation_totality (store : String → Option String)
    (hstore : ∀ p ∈ DEFAULT_TEMPLATES, (store p.1).isSome = true)
    (changes_summary change_type : String) :
    ∃ s, suggest_template store changes_summary change_type = Except.ok s ∧
      (TYPE_MAPPING.find? (fun p => p.1 == pyLower change_type) = none →
        s.recommended_template.filename = "feature.md") := by
  obtain ⟨s, hs, hfn⟩ := suggest_template_spec store hstore changes_summary change_type
  refine ⟨s, hs, fun hnone => ?_⟩
  rw [hfn]
  simp [dictGet, hnone]

/-- Witness for C6 at the full store and the empty change type. -/
theorem c6_witness :
    ∃ s, suggest_template fullStore "added a widget" "" = Except.ok s ∧
      (TYPE_MAPPING.find? (fun p => p.1 == pyLower "") = none →
        s.recommended_template.filename = "feature.md") :=
  c6_recommendation_totality fullStore (fun _ _ => rfl) "added a widget" ""

/-! ### C9: synonym consistency of `fix` and `bug` -/

/-- C9.  For every summary, the templates recommended for the change
types `fix` and `bug` carry the same filename. -/
theorem c9_synonym_consistency (store : String → Option String)
    (hstore : ∀ p ∈ DEFAULT_TEMPLATES, (store p.1).isSome = true)
    (changes_summary : String) :
    ∃ s₁ s₂, suggest_template store changes_summary "fix" = Except.ok s₁ ∧
      suggest_template store changes_summary "bug" = Except.ok s₂ ∧
      s₁.recommended_template.filename = s₂.recommended_template.filename := by
  obtain ⟨s₁, h₁, f₁⟩ := suggest_template_spec store hstore changes_summary "fix"
  obtain ⟨s₂, h₂, f₂⟩ := suggest_template_spec store hstore changes_summary "bug"
  refine ⟨s₁, s₂, h₁, h₂, ?_⟩
  rw [f₁, f₂]
  decide

/-- Witness for C9 at the full store. -/
theorem c9_witness :
    ∃ s₁ s₂, suggest_template fullStore "patched a crash" "fix" = Except.ok s₁ ∧
      suggest_template fullStore "patched a crash" "bug" = Except.ok s₂ ∧
      s₁.recommended_template.filename = s₂.recommended_template.filename :=
  c9_synonym_consistency fullStore (fun _ _ => rfl) "patched a crash"

/-! ### C10: the first-template fallback is unreachable -/

/-- C10.  For every change type, the synonym lookup result is a
declared template filename; consequently over an intact store the
by-filename search inside `suggest_template` always finds an entry
(the `templates[0]` defaulting branch is unreachable) and the
recommended filename equals the lookup result. -/
theorem c10_fallback_unreachable (store : String → Option String)
    (hstore : ∀ p ∈ DEFAULT_TEMPLATES, (store p.1).isSome = true)
    (changes_summary change_type : String) :
    dictGet TYPE_MAPPING (pyLower change_type) "feature.md" ∈ DEFAULT_TEMPLATES.map Prod.fst ∧
    (∃ ts, get_pr_templates store = Except.ok ts ∧
      ts.find? (fun t =>
        t.filename == dictGet TYPE_MAPPING (pyLower change_type) "feature.md") ≠ none) ∧
    ∃ s, suggest_template store changes_summary change_type = Except.ok s ∧
      s.recommended_template.filename =
        dictGet TYPE_MAPPING (pyLower change_type) "feature.md" := by
  refine ⟨dictGet_type_mapping_mem _, ?_,
    suggest_template_spec store hstore changes_summary change_type⟩
  obtain ⟨ts, hts, hmap, _⟩ := read_templates_ok store DEFAULT_TEMPLATES hstore
  have hfiles : ts.map (fun t => t.filename) = DEFAULT_TEMPLATES.map Prod.fst := by
    have := congrArg (List.map Prod.fst) hmap
    simpa [List.map_map, Function.comp] using this
  obtain ⟨t, hfind, _, _⟩ := find_by_filename ts
    (dictGet TYPE_MAPPING (pyLower change_type) "feature.md")
    (by rw [hfiles]; exact dictGet_type_mapping_mem _)
  refine ⟨ts, hts, ?_⟩
  rw [hfind]
  simp

/-- Witness for C10 at the full store and change type `cleanup`. -/
theorem c10_witness :
    dictGet TYPE_MAPPING (pyLower "cleanup") "feature.md" ∈ DEFAULT_TEMPLATES.map Prod.fst ∧
    (∃ ts, get_pr_templates fullStore = Except.ok ts ∧
      ts.find? (fun t =>
        t.filename == dictGet TYPE_MAPPING (pyLower "cleanup") "feature.md") ≠ none) ∧
    ∃ s, suggest_template fullStore "tidied internal helpers" "cleanup" = Except.ok s ∧
      s.recommended_template.filename =
        dictGet TYPE_MAPPING (pyLower "cleanup") "feature.md" :=
  c10_fallback_unreachable fullStore (fun _ _ => rfl) "tidied internal helpers" "cleanup"

/-! ### C2: shape of a truncated diff, line by line -/

/-- No element produced by `splitOnP` contains an element satisfying
the splitting predicate. -/
theorem not_of_mem_splitOnP {α : Type} (p : α → Bool) :
    ∀ (xs : List α) (l : List α), l ∈ xs.splitOnP p → ∀ y ∈ l, ¬ p y = true := by
  intro xs
  induction xs with
  | nil =>
    intro l hl y hy
    simp only [List.splitOnP_nil, List.mem_singleton] at hl
    subst hl
    simp at hy
  | cons x xs ih =>
    intro l hl y hy
    rw [List.splitOnP_cons] at hl
    by_cases hx : p x = true
    · rw [if_pos hx] at hl
      rcases List.mem_cons.mp hl with rfl | hl
      · simp at hy
      · exact ih l hl y hy
    · rw [if_neg hx] at hl
      cases hsp : xs.splitOnP p with
      | nil => exact absurd hsp (List.splitOnP_ne_nil p xs)
      | cons h t =>
        rw [hsp, List.modifyHead_cons] at hl
        rcases List.mem_cons.mp hl with rfl | hl
        · rcases List.mem_cons.mp hy with rfl | hy
          · exact hx
          · exact ih h (hsp ▸ List.mem_cons_self h t) y hy
        · exact ih l (hsp ▸ List.mem_cons_of_mem h hl) y hy

/-- Chunks of `splitOn x` never contain the separator `x`. -/
theorem not_mem_of_mem_splitOn (x : Char) (xs : List Char) (l : List Char)
    (hl : l ∈ xs.splitOn x) : x ∉ l := by
  intro hmem
  have hl' : l ∈ xs.splitOnP (· == x) := hl
  have := not_of_mem_splitOnP (· == x) xs l hl' x hmem
  simp at this

/-- `Nat.digitChar` only produces digit characters or `*`, never a
newline. -/
theorem digitChar_ne_newline (n : Nat) : Nat.digitChar n ≠ '\n' := by
  by_cases h : n < 16
  · interval_cases n <;> decide
  · unfold Nat.digitChar
    repeat rw [if_neg (by omega)]
    decide

/-- Every character of `Nat.toDigitsCore` output is either from the
accumulator or a digit character. -/
theorem toDigitsCore_chars (b : Nat) :
    ∀ (fuel n : Nat) (acc : List Char) (c : Char),
      c ∈ Nat.toDigitsCore b fuel n acc → c ∈ acc ∨ ∃ m, c = Nat.digitChar m := by
  intro fuel
  induction fuel with
  | zero =>
    intro n acc c h
    simp only [Nat.toDigitsCore] at h
    exact Or.inl h
  | succ f ih =>
    intro n acc c h
    simp only [Nat.toDigitsCore] at h
    split at h
    · rcases List.mem_cons.mp h with rfl | h
      · exact Or.inr ⟨n % b, rfl⟩
      · exact Or.inl h
    · rcases ih (n / b) (Nat.digitChar (n % b) :: acc) c h with h | h
      · rcases List.mem_cons.mp h with rfl | h
        · exact Or.inr ⟨n % b, rfl⟩
        · exact Or.inl h
      · exact h.elim (fun m hm => Or.inr ⟨m, hm⟩)

/-- The decimal rendering of a natural number contains no newline. -/
theorem repr_no_newline (n : Nat) : '\n' ∉ (Nat.repr n).data := by
  intro h
  have h' : '\n' ∈ Nat.toDigitsCore 10 (n + 1) n [] := h
  rcases toDigitsCore_chars 10 (n + 1) n [] '\n' h' with h'' | ⟨m, hm⟩
  · simp at h''
  · exact digitChar_ne_newline m hm.symm

/-- `intercalate` over an explicit two-head list peels off the first
chunk and one separator. -/
theorem intercalate_cons_cons_eq {α : Type} (sep : List α) (x y : List α)
    (t : List (List α)) :
    List.intercalate sep (x :: y :: t) = x ++ sep ++ List.intercalate sep (y :: t) := by
  simp [List.intercalate, List.append_assoc]

/-- `intercalate` distributes over an append whose right part is
nonempty (the left part is exhibited as a cons). -/
theorem intercalate_cons_append {α : Type} (sep : List α) :
    ∀ (A : List (List α)) (a : List α) (B : List (List α)), B ≠ [] →
      List.intercalate sep ((a :: A) ++ B) =
        List.intercalate sep (a :: A) ++ sep ++ List.intercalate sep B := by
  intro A
  induction A with
  | nil =>
    intro a B hB
    cases B with
    | nil => exact absurd rfl hB
    | cons b B' =>
      rw [List.singleton_append, intercalate_cons_cons_eq]
      simp [List.intercalate]
  | cons a' A' ih =>
    intro a B hB
    rw [List.cons_append, List.cons_append, intercalate_cons_cons_eq, ← List.cons_append,
      ih a' B hB, intercalate_cons_cons_eq]
    simp [List.append_assoc]

/-- Counterexample to C2 as stated: for the two-line diff text `a\nb`
with `maxLines = 1`, the truncated result has four lines — the one
kept original line, then a blank separator line and two marker lines —
not the claimed `N` original lines plus exactly one marker line. -/
theorem c2_counterexample :
    pySplitLines (truncate_diff "a\nb" 1).diff_content =
      ["a", "", "... Output truncated. Showing 1 of 2 lines ...",
       "... Use max_diff_lines parameter to see more ..."] ∧
    (pySplitLines (truncate_diff "a\nb" 1).diff_content).length ≠ 1 + 1 := by
  constructor
  · rfl
  · decide

/-- C2 (amended).  For every diff text of `N + 1` lines truncated to a
budget of `N` (`N` positive), the result consists of exactly the first
`N` original lines followed by three appended lines: a blank
separator, the line stating how many of the total lines are shown
(`Showing N of N+1 lines`), and the line telling the caller to raise
`max_diff_lines`; the truncation flag is set. -/
theorem c2_amended_theorem (text : String) (N : Nat) (hN : 0 < N)
    (hlen : (pySplitLines text).length = N + 1) :
    (truncate_diff text N).truncated = true ∧
    pySplitLines (truncate_diff text N).diff_content =
      (pySplitLines text).take N ++
        ["",
         "... Output truncated. Showing " ++ Nat.repr N ++ " of " ++ Nat.repr (N + 1)
           ++ " lines ...",
         "... Use max_diff_lines parameter to see more ..."] := by
  have hgt : (pySplitLines text).length > N := by omega
  have htd : truncate_diff text N =
      TruncResult.mk
        (pyJoinLines ((pySplitLines text).take N) ++ truncation_marker N (N + 1))
        true (N + 1) := by
    unfold truncate_diff
    rw [if_pos hgt, hlen]
  rw [htd]
  refine ⟨rfl, ?_⟩
  have hLlen : (text.data.splitOn '\n').length = N + 1 := by
    simpa [pySplitLines] using hlen
  have htake_ne : (text.data.splitOn '\n').take N ≠ [] := by
    intro hnil
    have := congrArg List.length hnil
    rw [List.length_take, hLlen] at this
    simp at this
    omega
  have hjoin : (pyJoinLines ((pySplitLines text).take N)).data
      = List.intercalate ['\n'] ((text.data.splitOn '\n').take N) := by
    unfold pyJoinLines pySplitLines
    rw [data_asString]
    congr 1
    rw [List.map_take, List.map_map,
      show String.data ∘ List.asString = fun l => l from funext data_asString]
    rw [List.map_id']
  have hdata : (pyJoinLines ((pySplitLines text).take N) ++ truncation_marker N (N + 1)).data
      = List.intercalate ['\n']
          ((text.data.splitOn '\n').take N ++
            [[],
             ("... Output truncated. Showing " : String).data ++ (Nat.repr N).data ++
               (" of " : String).data ++ (Nat.repr (N + 1)).data ++ (" lines ..." : String).data,
             ("... Use max_diff_lines parameter to see more ..." : String).data]) := by
    obtain ⟨a, A, hA⟩ := List.exists_cons_of_ne_nil htake_ne
    rw [string_data_append, hjoin, hA, intercalate_cons_append ['\n'] A a _ (by simp)]
    have e1 : ("\n\n... Output truncated. Showing " : String).data
        = '\n' :: '\n' :: ("... Output truncated. Showing " : String).data := rfl
    have e2 : ("\n... Use max_diff_lines parameter to see more ..." : String).data
        = '\n' :: ("... Use max_diff_lines parameter to see more ..." : String).data := rfl
    simp [truncation_marker, string_data_append, e1, e2, intercalate_cons_cons_eq,
      List.intercalate, List.append_assoc]
  have hsplit : (pyJoinLines ((pySplitLines text).take N)
        ++ truncation_marker N (N + 1)).data.splitOn '\n'
      = (text.data.splitOn '\n').take N ++
          [[],
           ("... Output truncated. Showing " : String).data ++ (Nat.repr N).data ++
             (" of " : String).data ++ (Nat.repr (N + 1)).data ++ (" lines ..." : String).data,
           ("... Use max_diff_lines parameter to see more ..." : String).data] := by
    rw [hdata]
    refine List.splitOn_intercalate _ '\n' ?_ (by simp)
    intro l hl
    rcases List.mem_append.mp hl with hl | hl
    · exact not_mem_of_mem_splitOn '\n' text.data l (List.take_subset N _ hl)
    · simp only [List.mem_cons, List.not_mem_nil, or_false] at hl
      rcases hl with rfl | rfl | rfl
      · simp
      · intro h
        simp only [List.mem_append] at h
        rcases h with ((((h | h) | h) | h) | h)
        · exact absurd h (by decide)
        · exact repr_no_newline N h
        · exact absurd h (by decide)
        · exact repr_no_newline (N + 1) h
        · exact absurd h (by decide)
      · decide
  show List.map List.asString
      (List.splitOn '\n'
        (pyJoinLines ((pySplitLines text).take N) ++ truncation_marker N (N + 1)).data)
    = (pySplitLines text).take N ++
        ["",
         "... Output truncated. Showing " ++ Nat.repr N ++ " of " ++ Nat.repr (N + 1)
           ++ " lines ...",
         "... Use max_diff_lines parameter to see more ..."]
  rw [hsplit, List.map_append, List.map_take]
  rfl

/-- Witness for the amended C2 at the concrete two-line text `a\nb`
with a budget of one line. -/
theorem c2_witness :
    (truncate_diff "a\nb" 1).truncated = true ∧
    pySplitLines (truncate_diff "a\nb" 1).diff_content =
      (pySplitLines "a\nb").take 1 ++
        ["",
         "... Output truncated. Showing " ++ Nat.repr 1 ++ " of " ++ Nat.repr (1 + 1)
           ++ " lines ...",
         "... Use max_diff_lines parameter to see more ..."] :=
  c2_amended_theorem "a\nb" 1 (by decide) (by decide)
